import Mathlib

/-!
Verification of the `lsp-rs` protocol module (`src/protocol.rs`): a shallow
embedding of the message data model, the three message builders
(`new_initialize`, `new_get_definition`, `new_initialized`) and the two
response decoders (`handle_initialize`, `handle_definition`), with theorems
settling the specification's claims about them.

JSON values are modelled by the inductive `Json` below, mirroring
`serde_json::Value`: numbers are integral (`Int`) — every number this client
emits or decodes is a `u32` — and objects are finite lists of string-keyed
fields (a `serde_json::Map` never holds a duplicate key, so first-match field
lookup coincides with serde's behaviour on every value the collaborator can
deliver).
-/

namespace LspRs

/-- A JSON value, as `serde_json::Value` represents it. -/
inductive Json where
  | null : Json
  | bool : Bool → Json
  | num : Int → Json
  | str : String → Json
  | arr : List Json → Json
  | obj : List (String × Json) → Json

/-- Whether the value is JSON `null` (`serde_json::Value::is_null`). -/
def Json.isNull : Json → Bool
  | .null => true
  | _ => false

/-- First-match field lookup in an object's field list. -/
def lookupField : List (String × Json) → String → Option Json
  | [], _ => none
  | (k, v) :: fs, key => if k = key then some v else lookupField fs key

/-- The value of a named field of a JSON object, `none` on a non-object or a
missing key. -/
def Json.getField : Json → String → Option Json
  | .obj fs, k => lookupField fs k
  | _, _ => none

/-- Follow a path of field names through nested JSON objects. -/
def Json.getPath : Json → List String → Option Json
  | v, [] => some v
  | v, k :: ks =>
    match v.getField k with
    | some v' => Json.getPath v' ks
    | none => none

/-- Deserializing a Rust `String` from a `serde_json::Value`: only a JSON
string succeeds. -/
def decodeString : Json → Option String
  | .str s => some s
  | _ => none

/-- Deserializing a Rust `u32` from a `serde_json::Value`: an integral number
in `[0, 2^32)`; anything else fails. -/
def decodeU32 : Json → Option Nat
  | .num n => if 0 ≤ n ∧ n < 4294967296 then some n.toNat else none
  | _ => none

/-- `Position` (src/protocol.rs lines 147-151): `line` and `character` are
`u32`, modelled as `Nat` (no arithmetic is performed on them). -/
structure Position where
  line : Nat
  character : Nat
deriving DecidableEq

/-- `Range` (src/protocol.rs lines 141-145). -/
structure Range where
  start : Position
  «end» : Position
deriving DecidableEq

/-- `Location` (src/protocol.rs lines 135-139): the unit returned by
`textDocument/definition`. -/
structure Location where
  uri : String
  range : Range
deriving DecidableEq

/-- serde's derived `Deserialize` for `Position`, as `serde_json::from_value`
runs it: a JSON object with fields `line` and `character` (unknown fields
ignored, missing fields an error), or — because `serde_json`'s
`deserialize_struct` also accepts a JSON array, reading the fields
positionally — an array of exactly two `u32`-decodable elements. -/
def decodePosition : Json → Option Position
  | .obj fs => do
    let l ← (lookupField fs "line").bind decodeU32
    let c ← (lookupField fs "character").bind decodeU32
    some ⟨l, c⟩
  | .arr [lv, cv] => do
    let l ← decodeU32 lv
    let c ← decodeU32 cv
    some ⟨l, c⟩
  | _ => none

/-- serde's derived `Deserialize` for `Range`: object with fields `start` and
`end`, or a two-element array read positionally. -/
def decodeRange : Json → Option Range
  | .obj fs => do
    let s ← (lookupField fs "start").bind decodePosition
    let e ← (lookupField fs "end").bind decodePosition
    some ⟨s, e⟩
  | .arr [sv, ev] => do
    let s ← decodePosition sv
    let e ← decodePosition ev
    some ⟨s, e⟩
  | _ => none

/-- serde's derived `Deserialize` for `Location`: object with fields `uri`
(string) and `range`, or a two-element array read positionally. This is the
first decode attempt of `handle_definition`
(`serde_json::from_value::<Location>`). -/
def decodeLocation : Json → Option Location
  | .obj fs => do
    let u ← (lookupField fs "uri").bind decodeString
    let r ← (lookupField fs "range").bind decodeRange
    some ⟨u, r⟩
  | .arr [uv, rv] => do
    let u ← decodeString uv
    let r ← decodeRange rv
    some ⟨u, r⟩
  | _ => none

/-- Element-wise decoding of a JSON array's entries as `Location`s. -/
def decodeLocationList : List Json → Option (List Location)
  | [] => some []
  | v :: vs => do
    let l ← decodeLocation v
    let ls ← decodeLocationList vs
    some (l :: ls)

/-- serde's derived `Deserialize` for `Vec<Location>`: only a JSON array
succeeds, every element must decode as a `Location`. This is the second
decode attempt of `handle_definition`
(`serde_json::from_value::<Vec<Location>>`). -/
def decodeLocations : Json → Option (List Location)
  | .arr xs => decodeLocationList xs
  | _ => none

/-- `ResponseMessage` (src/protocol.rs lines 19-26): the flattened
`BaseMessage` contributes the `jsonrpc` field; `id`, `result` and `error` are
all optional on the wire. -/
structure ResponseMessage where
  jsonrpc : String
  id : Option Json
  result : Option Json
  error : Option Json

/-- The distinct `bail!` sites of `ResponseMessage::handle_definition`, one
constructor per `anyhow` message: `serverError e` is the "Error from LSP
server" bail carrying the Debug-formatted error payload, `notFound` is the
"No definition found." bail, and `malformedResult` is the "Failed to parse
definition location(s) from response." bail. -/
inductive DefinitionError where
  | serverError : Json → DefinitionError
  | notFound : DefinitionError
  | malformedResult : DefinitionError

/-- `ResponseMessage::handle_initialize` (src/protocol.rs lines 276-282):
bails with the server's error payload when `error` is present (`is_some`),
otherwise returns `Ok(())` without looking at `result`. -/
def ResponseMessage.handle_initialize (r : ResponseMessage) : Except Json Unit :=
  match r.error with
  | some e => .error e
  | none => .ok ()

/-- `ResponseMessage::handle_definition` (src/protocol.rs lines 284-308):
bail on a present `error`; bail `notFound` on an absent or `null` `result`;
otherwise try `from_value::<Location>` then `from_value::<Vec<Location>>`
(the source computes both decodes before matching; decoding is pure, so the
eager evaluation is observationally the same), and bail `malformedResult`
when neither succeeds. -/
def ResponseMessage.handle_definition (r : ResponseMessage) :
    Except DefinitionError (List Location) :=
  match r.error with
  | some e => .error (.serverError e)
  | none =>
    match r.result with
    | some res =>
      if res.isNull then .error .notFound
      else
        match decodeLocation res with
        | some loc => .ok [loc]
        | none =>
          match decodeLocations res with
          | some locs => .ok locs
          | none => .error .malformedResult
    | none => .error .notFound

/-- The specification's `decode_definition_result` algorithm, transcribed
step by step from §4.3 of the spec (the six numbered steps, in order):
1. `error` present → fail with the server error payload; 2. `result` absent →
`notFound`; 3. `result` equal to JSON `null` → `notFound`; 4. try a single
`Location`, returning a one-element sequence; 5. try a sequence of
`Location`, returned as-is; 6. otherwise `malformedResult`. Stated from the
spec's words, to be compared against `handle_definition`. -/
def decode_definition_result (r : ResponseMessage) :
    Except DefinitionError (List Location) :=
  match r.error with
  | some e => .error (.serverError e)
  | none =>
    match r.result with
    | none => .error .notFound
    | some res =>
      match res with
      | .null => .error .notFound
      | _ =>
        match decodeLocation res with
        | some loc => .ok [loc]
        | none =>
          match decodeLocations res with
          | some locs => .ok locs
          | none => .error .malformedResult

/-- `handle_definition` with the two decode attempts swapped: the sequence
shape is tried before the single-`Location` shape. Used to settle the spec's
statement that swapping the attempt order is behaviour-preserving. -/
def ResponseMessage.handle_definition_swapped (r : ResponseMessage) :
    Except DefinitionError (List Location) :=
  match r.error with
  | some e => .error (.serverError e)
  | none =>
    match r.result with
    | some res =>
      if res.isNull then .error .notFound
      else
        match decodeLocations res with
        | some locs => .ok locs
        | none =>
          match decodeLocation res with
          | some loc => .ok [loc]
          | none => .error .malformedResult
    | none => .error .notFound

/-- `WorkspaceFolder` (src/protocol.rs lines 55-59). -/
structure WorkspaceFolder where
  uri : String
  name : String

/-- `ClientInfo` (src/protocol.rs lines 49-53). -/
structure ClientInfo where
  name : String
  version : String

/-- `DidChangeConfiguration` (src/protocol.rs lines 79-83). -/
structure DidChangeConfiguration where
  dynamic_registration : Bool

/-- `WorkspaceEdit` (src/protocol.rs lines 85-89). -/
structure WorkspaceEdit where
  document_changes : Bool

/-- `CapabilitiesWorkspace` (src/protocol.rs lines 68-77). -/
structure CapabilitiesWorkspace where
  workspace_folders : Bool
  did_change_configuration : DidChangeConfiguration
  workspace_edit : WorkspaceEdit
  configuration : Bool

/-- `Hover` (src/protocol.rs lines 99-103). -/
structure Hover where
  content_format : List String

/-- `CompletionItem` (src/protocol.rs lines 111-115). -/
structure CompletionItem where
  snippet_support : Bool

/-- `Completion` (src/protocol.rs lines 105-109). -/
structure Completion where
  completion_item : CompletionItem

/-- `CodeActionKind` (src/protocol.rs lines 129-133). -/
structure CodeActionKind where
  value_set : List String

/-- `CodeActionLiteralSupport` (src/protocol.rs lines 123-127). -/
structure CodeActionLiteralSupport where
  code_action_kind : CodeActionKind

/-- `CodeAction` (src/protocol.rs lines 117-121). -/
structure CodeAction where
  code_action_literal_support : CodeActionLiteralSupport

/-- `CapabilitiesTextDocument` (src/protocol.rs lines 91-97). -/
structure CapabilitiesTextDocument where
  hover : Hover
  completion : Completion
  code_action : CodeAction

/-- `ClientCapabilities` (src/protocol.rs lines 61-66). -/
structure ClientCapabilities where
  workspace : Option CapabilitiesWorkspace
  text_document : Option CapabilitiesTextDocument

/-- `InitializeParams` (src/protocol.rs lines 36-47): `process_id` is a
`u32`, modelled as `Nat`. -/
structure InitializeParams where
  process_id : Nat
  root_uri : String
  client_info : ClientInfo
  capabilities : ClientCapabilities
  workspace_folders : Option (List WorkspaceFolder)

/-!
The serializer model. `serde_json::to_value` runs a value's `Serialize`
implementation and returns `Result<Value>`: the conversion itself can fail —
its one failure mode at this level is a map whose keys do not serialize to
strings (the repository's capability structs were once `HashMap`s, per the
comments on `ClientCapabilities`). `SJ` is the tree a `Serialize`
implementation hands to the serializer: structs become string-keyed `jobj`
nodes (with serde's `rename` attributes applied), collections become `jarr`,
and a `jmap` node carries arbitrarily-keyed map entries — the shape on which
`SJ.toValue` can fail. Derived `Serialize` for the structs above never
produces a `jmap`, which is what makes the `unwrap` in `new_initialize`
safe.
-/

/-- The serialization tree a `Serialize` implementation produces. -/
inductive SJ where
  | null : SJ
  | jbool : Bool → SJ
  | jnum : Int → SJ
  | jstr : String → SJ
  | jarr : List SJ → SJ
  | jobj : List (String × SJ) → SJ
  | jmap : List (SJ × SJ) → SJ

mutual

/-- `serde_json::to_value`'s conversion of a serialization tree to a
`Value`: fails exactly when a map entry's key is not a string. -/
def SJ.toValue : SJ → Option Json
  | .null => some .null
  | .jbool b => some (.bool b)
  | .jnum n => some (.num n)
  | .jstr s => some (.str s)
  | .jarr xs =>
    match SJ.toValueList xs with
    | some vs => some (.arr vs)
    | none => none
  | .jobj fs =>
    match SJ.toValueFields fs with
    | some vs => some (.obj vs)
    | none => none
  | .jmap es =>
    match SJ.toValueEntries es with
    | some vs => some (.obj vs)
    | none => none

/-- Convert the elements of a sequence. -/
def SJ.toValueList : List SJ → Option (List Json)
  | [] => some []
  | x :: xs =>
    match SJ.toValue x, SJ.toValueList xs with
    | some v, some vs => some (v :: vs)
    | _, _ => none

/-- Convert a struct's fields (keys are string field names already). -/
def SJ.toValueFields : List (String × SJ) → Option (List (String × Json))
  | [] => some []
  | (k, x) :: fs =>
    match SJ.toValue x, SJ.toValueFields fs with
    | some v, some vs => some ((k, v) :: vs)
    | _, _ => none

/-- Convert map entries: a non-string key is the failure case ("key must be
a string"). -/
def SJ.toValueEntries : List (SJ × SJ) → Option (List (String × Json))
  | [] => some []
  | (k, x) :: es =>
    match k with
    | .jstr s =>
      match SJ.toValue x, SJ.toValueEntries es with
      | some v, some vs => some ((s, v) :: vs)
      | _, _ => none
    | _ => none

end

/-- Derived `Serialize` for `WorkspaceFolder`. -/
def WorkspaceFolder.ser (w : WorkspaceFolder) : SJ :=
  .jobj [("uri", .jstr w.uri), ("name", .jstr w.name)]

/-- Derived `Serialize` for `ClientInfo`. -/
def ClientInfo.ser (c : ClientInfo) : SJ :=
  .jobj [("name", .jstr c.name), ("version", .jstr c.version)]

/-- Derived `Serialize` for `CapabilitiesWorkspace`, with serde's `rename`
attributes giving the wire field names. -/
def CapabilitiesWorkspace.ser (w : CapabilitiesWorkspace) : SJ :=
  .jobj [("workspaceFolders", .jbool w.workspace_folders),
    ("didChangeConfiguration",
      .jobj [("dynamicRegistration", .jbool w.did_change_configuration.dynamic_registration)]),
    ("workspaceEdit", .jobj [("documentChanges", .jbool w.workspace_edit.document_changes)]),
    ("configuration", .jbool w.configuration)]

/-- Derived `Serialize` for `CapabilitiesTextDocument`, `rename` attributes
applied. -/
def CapabilitiesTextDocument.ser (t : CapabilitiesTextDocument) : SJ :=
  .jobj [("hover", .jobj [("contentFormat", .jarr (t.hover.content_format.map SJ.jstr))]),
    ("completion",
      .jobj [("completionItem",
        .jobj [("snippetSupport", .jbool t.completion.completion_item.snippet_support)])]),
    ("codeAction",
      .jobj [("codeActionLiteralSupport",
        .jobj [("codeActionKind",
          .jobj [("valueSet",
            .jarr (t.code_action.code_action_literal_support.code_action_kind.value_set.map
              SJ.jstr))])])])]

/-- Derived `Serialize` for `ClientCapabilities`: an absent `Option`
serializes to JSON `null` (no `skip_serializing_if` in the source). -/
def ClientCapabilities.ser (c : ClientCapabilities) : SJ :=
  .jobj [("workspace",
      match c.workspace with
      | some w => w.ser
      | none => .null),
    ("textDocument",
      match c.text_document with
      | some t => t.ser
      | none => .null)]

/-- Derived `Serialize` for `InitializeParams`, `rename` attributes applied. -/
def InitializeParams.ser (p : InitializeParams) : SJ :=
  .jobj [("processId", .jnum p.process_id),
    ("rootUri", .jstr p.root_uri),
    ("clientInfo", p.client_info.ser),
    ("capabilities", p.capabilities.ser),
    ("workspaceFolders",
      match p.workspace_folders with
      | some fs => .jarr (fs.map WorkspaceFolder.ser)
      | none => .null)]

/-- `serde_json::to_value` applied to an `InitializeParams` — the call whose
result `new_initialize` unwraps. -/
def InitializeParams.to_value (p : InitializeParams) : Option Json :=
  p.ser.toValue

/-- The JSON object `WorkspaceFolder` serializes to. -/
def WorkspaceFolder.toJson (w : WorkspaceFolder) : Json :=
  .obj [("uri", .str w.uri), ("name", .str w.name)]

/-- The JSON object `CapabilitiesWorkspace` serializes to. -/
def CapabilitiesWorkspace.toJson (w : CapabilitiesWorkspace) : Json :=
  .obj [("workspaceFolders", .bool w.workspace_folders),
    ("didChangeConfiguration",
      .obj [("dynamicRegistration", .bool w.did_change_configuration.dynamic_registration)]),
    ("workspaceEdit", .obj [("documentChanges", .bool w.workspace_edit.document_changes)]),
    ("configuration", .bool w.configuration)]

/-- The JSON object `CapabilitiesTextDocument` serializes to. -/
def CapabilitiesTextDocument.toJson (t : CapabilitiesTextDocument) : Json :=
  .obj [("hover", .obj [("contentFormat", .arr (t.hover.content_format.map Json.str))]),
    ("completion",
      .obj [("completionItem",
        .obj [("snippetSupport", .bool t.completion.completion_item.snippet_support)])]),
    ("codeAction",
      .obj [("codeActionLiteralSupport",
        .obj [("codeActionKind",
          .obj [("valueSet",
            .arr (t.code_action.code_action_literal_support.code_action_kind.value_set.map
              Json.str))])])])]

/-- The JSON object `ClientCapabilities` serializes to. -/
def ClientCapabilities.toJson (c : ClientCapabilities) : Json :=
  .obj [("workspace",
      match c.workspace with
      | some w => w.toJson
      | none => .null),
    ("textDocument",
      match c.text_document with
      | some t => t.toJson
      | none => .null)]

/-- The JSON object `InitializeParams` serializes to. -/
def InitializeParams.toJson (p : InitializeParams) : Json :=
  .obj [("processId", .num p.process_id),
    ("rootUri", .str p.root_uri),
    ("clientInfo", .obj [("name", .str p.client_info.name), ("version", .str p.client_info.version)]),
    ("capabilities", p.capabilities.toJson),
    ("workspaceFolders",
      match p.workspace_folders with
      | some fs => .arr (fs.map WorkspaceFolder.toJson)
      | none => .null)]

/-- `RequestMessage` (src/protocol.rs lines 9-17): the flattened
`BaseMessage` contributes `jsonrpc`; `notification` is a `u8`, always `0`
for requests built here; `id` and `params` are JSON values. -/
structure RequestMessage where
  jsonrpc : String
  id : Json
  notification : Nat
  method : String
  params : Json

/-- `NotificationMessage` (src/protocol.rs lines 28-34): no `id` field at
all. -/
structure NotificationMessage where
  jsonrpc : String
  method : String
  params : Json

/-- Serialization of a `RequestMessage`: the `flatten` attribute inlines
`jsonrpc` into the same object (field order is immaterial to
`serde_json::Value` equality; declaration order is used here). -/
def RequestMessage.toJson (m : RequestMessage) : Json :=
  .obj [("jsonrpc", .str m.jsonrpc), ("id", m.id), ("notification", .num m.notification),
    ("method", .str m.method), ("params", m.params)]

/-- Serialization of a `NotificationMessage`: `jsonrpc`, `method` and
`params` only — the struct has no `id` field, so the serialized object has
no `id` key. -/
def NotificationMessage.toJson (m : NotificationMessage) : Json :=
  .obj [("jsonrpc", .str m.jsonrpc), ("method", .str m.method), ("params", m.params)]

/-- The capability tree `RequestMessage::new_initialize` constructs
(src/protocol.rs lines 182-214), written as a standalone value: it mentions
no parameter of `new_initialize`. -/
def initializeCapabilities : ClientCapabilities where
  workspace := some
    { workspace_folders := true
      did_change_configuration := { dynamic_registration := true }
      workspace_edit := { document_changes := true }
      configuration := true }
  text_document := some
    { hover := { content_format := ["plaintext"] }
      completion := { completion_item := { snippet_support := true } }
      code_action :=
        { code_action_literal_support :=
          { code_action_kind :=
            { value_set :=
              ["source.organizeImports", "refactor.rewrite", "refactor.extract"] } } } }

/-- The code-action kind value set of the constructed capability tree. -/
def initializeValueSet : List String :=
  match initializeCapabilities.text_document with
  | some t => t.code_action.code_action_literal_support.code_action_kind.value_set
  | none => []

/-- `RequestMessage::new_initialize` (src/protocol.rs lines 169-232):
assembles `InitializeParams` with the fixed capability tree and serializes
it with `serde_json::to_value(...).unwrap()`; the `unwrap` is modelled as
`Option.getD` with a junk default, shown unreachable by
`new_initialize_unwrap_safe`. -/
def RequestMessage.new_initialize (id : Nat) (process_id : Nat) (root_uri : String)
    (client_name : String) (client_version : String)
    (workspace_folders : List WorkspaceFolder) : RequestMessage :=
  let client_info : ClientInfo := { name := client_name, version := client_version }
  { jsonrpc := "2.0"
    id := .num id
    method := "initialize"
    notification := 0
    params :=
      (InitializeParams.to_value
        { process_id := process_id
          root_uri := root_uri
          client_info := client_info
          capabilities := initializeCapabilities
          workspace_folders := some workspace_folders }).getD .null }

/-- `RequestMessage::new_get_definition` (src/protocol.rs lines 239-257):
the `json!` literal for the params. -/
def RequestMessage.new_get_definition (id : Nat) (uri : String) (position : Position) :
    RequestMessage where
  jsonrpc := "2.0"
  id := .num id
  method := "textDocument/definition"
  notification := 0
  params :=
    .obj [("textDocument", .obj [("uri", .str uri)]),
      ("position",
        .obj [("line", .num position.line), ("character", .num position.character)])]

/-- `NotificationMessage::new_initialized` (src/protocol.rs lines 264-272):
`params` is the empty JSON object. -/
def NotificationMessage.new_initialized : NotificationMessage where
  jsonrpc := "2.0"
  method := "initialized"
  params := .obj []

/-- The fixed capability tree of §3 of the spec, as the JSON object the
`initialize` request carries under `params.capabilities`: a closed value
mentioning no input. -/
def fixedCapabilityTree : Json :=
  .obj [("workspace",
      .obj [("workspaceFolders", .bool true),
        ("didChangeConfiguration", .obj [("dynamicRegistration", .bool true)]),
        ("workspaceEdit", .obj [("documentChanges", .bool true)]),
        ("configuration", .bool true)]),
    ("textDocument",
      .obj [("hover", .obj [("contentFormat", .arr [.str "plaintext"])]),
        ("completion", .obj [("completionItem", .obj [("snippetSupport", .bool true)])]),
        ("codeAction",
          .obj [("codeActionLiteralSupport",
            .obj [("codeActionKind",
              .obj [("valueSet",
                .arr [.str "source.organizeImports", .str "refactor.rewrite",
                  .str "refactor.extract"])])])])])]

/-! Helper lemmas: per-constructor rewriting equations for `SJ.toValue`
(well-founded recursion does not reduce definitionally), then the
computation of `toValue` on the trees the derived `Serialize`
implementations produce. -/

theorem toValue_null : SJ.toValue .null = some .null := by
  simp [SJ.toValue]

theorem toValue_jbool (b : Bool) : SJ.toValue (.jbool b) = some (.bool b) := by
  simp [SJ.toValue]

theorem toValue_jnum (n : Int) : SJ.toValue (.jnum n) = some (.num n) := by
  simp [SJ.toValue]

theorem toValue_jstr (s : String) : SJ.toValue (.jstr s) = some (.str s) := by
  simp [SJ.toValue]

theorem toValue_jarr (xs : List SJ) :
    SJ.toValue (.jarr xs) = (SJ.toValueList xs).map Json.arr := by
  cases h : SJ.toValueList xs <;> simp [SJ.toValue, h]

theorem toValue_jobj (fs : List (String × SJ)) :
    SJ.toValue (.jobj fs) = (SJ.toValueFields fs).map Json.obj := by
  cases h : SJ.toValueFields fs <;> simp [SJ.toValue, h]

theorem toValueList_nil : SJ.toValueList [] = some [] := by
  simp [SJ.toValueList]

theorem toValueList_cons (x : SJ) (xs : List SJ) :
    SJ.toValueList (x :: xs) =
      (SJ.toValue x).bind fun v => (SJ.toValueList xs).map fun vs => v :: vs := by
  cases h1 : SJ.toValue x <;> cases h2 : SJ.toValueList xs <;>
    simp [SJ.toValueList, h1, h2]

theorem toValueFields_nil : SJ.toValueFields [] = some [] := by
  simp [SJ.toValueFields]

theorem toValueFields_cons (k : String) (x : SJ) (fs : List (String × SJ)) :
    SJ.toValueFields ((k, x) :: fs) =
      (SJ.toValue x).bind fun v => (SJ.toValueFields fs).map fun vs => (k, v) :: vs := by
  cases h1 : SJ.toValue x <;> cases h2 : SJ.toValueFields fs <;>
    simp [SJ.toValueFields, h1, h2]

theorem toValueList_jstr (ss : List String) :
    SJ.toValueList (ss.map SJ.jstr) = some (ss.map Json.str) := by
  induction ss with
  | nil => simp [toValueList_nil]
  | cons s t ih => simp [toValueList_cons, toValue_jstr, ih]

theorem workspaceFolder_ser_toValue (w : WorkspaceFolder) :
    w.ser.toValue = some w.toJson := by
  simp [WorkspaceFolder.ser, WorkspaceFolder.toJson, toValue_jobj, toValueFields_cons,
    toValueFields_nil, toValue_jstr]

theorem toValueList_folders (fs : List WorkspaceFolder) :
    SJ.toValueList (fs.map WorkspaceFolder.ser) = some (fs.map WorkspaceFolder.toJson) := by
  induction fs with
  | nil => simp [toValueList_nil]
  | cons w t ih => simp [toValueList_cons, workspaceFolder_ser_toValue, ih]

theorem capabilitiesWorkspace_ser_toValue (w : CapabilitiesWorkspace) :
    w.ser.toValue = some w.toJson := by
  simp [CapabilitiesWorkspace.ser, CapabilitiesWorkspace.toJson, toValue_jobj,
    toValueFields_cons, toValueFields_nil, toValue_jbool]

theorem capabilitiesTextDocument_ser_toValue (t : CapabilitiesTextDocument) :
    t.ser.toValue = some t.toJson := by
  simp [CapabilitiesTextDocument.ser, CapabilitiesTextDocument.toJson, toValue_jobj,
    toValueFields_cons, toValueFields_nil, toValue_jbool, toValue_jarr, toValueList_jstr]

theorem clientCapabilities_ser_toValue (c : ClientCapabilities) :
    c.ser.toValue = some c.toJson := by
  cases hw : c.workspace <;> cases ht : c.text_document <;>
    simp [ClientCapabilities.ser, ClientCapabilities.toJson, hw, ht, toValue_jobj,
      toValueFields_cons, toValueFields_nil, toValue_null,
      capabilitiesWorkspace_ser_toValue, capabilitiesTextDocument_ser_toValue]

theorem InitializeParams.to_value_eq (p : InitializeParams) :
    p.to_value = some p.toJson := by
  cases hf : p.workspace_folders <;>
    simp [InitializeParams.to_value, InitializeParams.ser, InitializeParams.toJson, hf,
      toValue_jobj, toValueFields_cons, toValueFields_nil, toValue_jnum, toValue_jstr,
      toValue_null, toValue_jarr, ClientInfo.ser, clientCapabilities_ser_toValue,
      toValueList_folders]

theorem new_initialize_toJson_eq (id pid : Nat) (root name ver : String)
    (folders : List WorkspaceFolder) :
    (RequestMessage.new_initialize id pid root name ver folders).toJson =
      Json.obj [("jsonrpc", .str "2.0"), ("id", .num id), ("notification", .num 0),
        ("method", .str "initialize"),
        ("params", InitializeParams.toJson
          { process_id := pid, root_uri := root,
            client_info := { name := name, version := ver },
            capabilities := initializeCapabilities,
            workspace_folders := some folders })] := by
  simp [RequestMessage.toJson, RequestMessage.new_initialize, InitializeParams.to_value_eq]

/-- Helper: the two shapes `handle_definition` tries never both decode: a
single `Location` needs an object, or a positional array whose first element
is a string; a `Vec<Location>` needs an array each of whose elements is
itself `Location`-shaped — and a string is never `Location`-shaped. -/
theorem decode_shapes_disjoint (v : Json) :
    ((decodeLocation v).isSome && (decodeLocations v).isSome) = false := by
  cases v with
  | null => rfl
  | bool b => rfl
  | num n => rfl
  | str s => rfl
  | obj fs =>
    have h : decodeLocations (.obj fs) = none := rfl
    rw [h]
    simp
  | arr xs =>
    match xs with
    | [] => rfl
    | [a] => rfl
    | a :: b :: c :: rest => rfl
    | [a, b] =>
      cases a with
      | str s =>
        have h : decodeLocations (.arr [.str s, b]) = none := rfl
        rw [h]
        simp
      | null => rfl
      | bool x => rfl
      | num x => rfl
      | arr ys => rfl
      | obj gs => rfl

/-- Helper: swapping the two decode attempts of `handle_definition` changes
no output, because on every value at most one attempt succeeds. -/
theorem handle_definition_swap_eq (r : ResponseMessage) :
    r.handle_definition_swapped = r.handle_definition := by
  obtain ⟨j, i, res, err⟩ := r
  cases err with
  | some e => rfl
  | none =>
    cases res with
    | none => rfl
    | some v =>
      simp only [ResponseMessage.handle_definition, ResponseMessage.handle_definition_swapped]
      cases hn : v.isNull
      case true => simp [hn]
      case false =>
        simp only [hn, Bool.false_eq_true, if_false]
        cases h1 : decodeLocation v <;> cases h2 : decodeLocations v
        · simp [h1, h2]
        · simp [h1, h2]
        · simp [h1, h2]
        · exfalso
          have hd := decode_shapes_disjoint v
          rw [h1, h2] at hd
          simp at hd

/-- C1: `handle_definition` follows exactly the specification's
`decode_definition_result` algorithm: a present `error` takes precedence and
fails with the server payload; an absent or `null` `result` fails with
`notFound`; otherwise a single `Location` decode is attempted first and
wrapped in a one-element list, then a `Location`-sequence decode returned
as-is, and `malformedResult` when both fail. -/
theorem handle_definition_follows_spec_algorithm (r : ResponseMessage) :
    r.handle_definition = decode_definition_result r := by
  obtain ⟨j, i, res, err⟩ := r
  cases err with
  | some e => rfl
  | none =>
    cases res with
    | none => rfl
    | some v => cases v <;> rfl

/-- C2: for every input, the request built by `new_initialize` serializes to
an object whose `method` is `"initialize"`, whose `id` is the input id, and
whose `params.capabilities` is the one fixed capability tree of §3,
independently of every input value. -/
theorem new_initialize_wire_shape (id pid : Nat) (root name ver : String)
    (folders : List WorkspaceFolder) :
    (RequestMessage.new_initialize id pid root name ver folders).toJson.getPath ["method"] =
        some (.str "initialize") ∧
      (RequestMessage.new_initialize id pid root name ver folders).toJson.getPath ["id"] =
        some (.num id) ∧
      (RequestMessage.new_initialize id pid root name ver folders).toJson.getPath
          ["params", "capabilities"] = some fixedCapabilityTree := by
  rw [new_initialize_toJson_eq]
  exact ⟨rfl, rfl, rfl⟩

/-- C3 (amended): the code-action kind value set the capability tree of
`new_initialize` declares is exactly
`["source.organizeImports", "refactor.rewrite", "refactor.extract"]` for
every input — the first kind is `source.organizeImports`, not the claim's
`organizeImports`. -/
theorem new_initialize_code_action_value_set (id pid : Nat) (root name ver : String)
    (folders : List WorkspaceFolder) :
    (RequestMessage.new_initialize id pid root name ver folders).toJson.getPath
        ["params", "capabilities", "textDocument", "codeAction",
          "codeActionLiteralSupport", "codeActionKind", "valueSet"] =
        some (.arr [.str "source.organizeImports", .str "refactor.rewrite",
          .str "refactor.extract"]) ∧
      initializeValueSet = ["source.organizeImports", "refactor.rewrite", "refactor.extract"] := by
  rw [new_initialize_toJson_eq]
  exact ⟨rfl, rfl⟩

/-- C3 counterexample: at concrete inputs the advertised value set is
`["source.organizeImports", "refactor.rewrite", "refactor.extract"]`, and
that list is not the claim's
`["organizeImports", "refactor.rewrite", "refactor.extract"]`. -/
theorem new_initialize_code_action_value_set_cex :
    (RequestMessage.new_initialize 1 42 "file:///root" "client" "0.1.0" []).toJson.getPath
        ["params", "capabilities", "textDocument", "codeAction",
          "codeActionLiteralSupport", "codeActionKind", "valueSet"] =
        some (.arr [.str "source.organizeImports", .str "refactor.rewrite",
          .str "refactor.extract"]) ∧
      (initializeValueSet == ["organizeImports", "refactor.rewrite", "refactor.extract"]) =
        false := by
  constructor
  · rw [new_initialize_toJson_eq]
    rfl
  · rfl

/-- C4: on every JSON value at most one of the two decode attempts of
`handle_definition` succeeds, and consequently the variant trying the array
shape before the single-object shape is extensionally equal to
`handle_definition` on every response. -/
theorem decode_attempts_disjoint_and_swap_preserving (v : Json) (r : ResponseMessage) :
    ((decodeLocation v).isSome && (decodeLocations v).isSome) = false ∧
      r.handle_definition_swapped = r.handle_definition :=
  ⟨decode_shapes_disjoint v, handle_definition_swap_eq r⟩

/-- C5: `handle_initialize` fails with the server-supplied error payload
exactly when the `error` field is present — any present value, `null`
included — and succeeds when `error` is absent, regardless of `result`. -/
theorem handle_initialize_error_presence (r : ResponseMessage) :
    (∀ e : Json, r.error = some e → r.handle_initialize = .error e) ∧
      (r.error = none → r.handle_initialize = .ok ()) := by
  constructor
  · intro e he
    simp [ResponseMessage.handle_initialize, he]
  · intro he
    simp [ResponseMessage.handle_initialize, he]

/-- C5 witness: a response with `error = null` fails carrying `null`; the
same response without the `error` field succeeds although `result` is an
arbitrary string. -/
theorem handle_initialize_error_presence_witness :
    ResponseMessage.handle_initialize
        { jsonrpc := "2.0", id := some (.num 1), result := some (.str "caps"),
          error := some .null } = .error .null ∧
      ResponseMessage.handle_initialize
        { jsonrpc := "2.0", id := some (.num 1), result := some (.str "caps"),
          error := none } = .ok () :=
  ⟨(handle_initialize_error_presence _).1 .null rfl,
    (handle_initialize_error_presence _).2 rfl⟩

/-- C6: `new_initialized` always serializes to exactly the object with the
fields `jsonrpc = "2.0"`, `method = "initialized"` and empty-object
`params`, and the serialized object has no `id` key at all. -/
theorem new_initialized_serialization :
    NotificationMessage.new_initialized.toJson =
        Json.obj [("jsonrpc", .str "2.0"), ("method", .str "initialized"),
          ("params", .obj [])] ∧
      NotificationMessage.new_initialized.toJson.getField "id" = none :=
  ⟨rfl, rfl⟩

/-- C7: `new_get_definition` round-trips `uri`, `position.line` and
`position.character` unchanged into `params.textDocument.uri`,
`params.position.line` and `params.position.character`, with method
`textDocument/definition` and the input id. -/
theorem new_get_definition_roundtrip (id : Nat) (uri : String) (position : Position) :
    (RequestMessage.new_get_definition id uri position).toJson.getPath ["method"] =
        some (.str "textDocument/definition") ∧
      (RequestMessage.new_get_definition id uri position).toJson.getPath ["id"] =
        some (.num id) ∧
      (RequestMessage.new_get_definition id uri position).toJson.getPath
          ["params", "textDocument", "uri"] = some (.str uri) ∧
      (RequestMessage.new_get_definition id uri position).toJson.getPath
          ["params", "position", "line"] = some (.num position.line) ∧
      (RequestMessage.new_get_definition id uri position).toJson.getPath
          ["params", "position", "character"] = some (.num position.character) :=
  ⟨rfl, rfl, rfl, rfl, rfl⟩

/-- C8: every message value the client constructs — both requests and the
one built notification — carries the jsonrpc version string `"2.0"`, for all
inputs to the builders. -/
theorem builders_jsonrpc_version (id pid : Nat) (root name ver : String)
    (folders : List WorkspaceFolder) (id2 : Nat) (uri : String) (position : Position) :
    (RequestMessage.new_initialize id pid root name ver folders).jsonrpc = "2.0" ∧
      (RequestMessage.new_get_definition id2 uri position).jsonrpc = "2.0" ∧
      NotificationMessage.new_initialized.jsonrpc = "2.0" :=
  ⟨rfl, rfl, rfl⟩

/-- C9: `serde_json::to_value` succeeds on every `InitializeParams` value —
the `unwrap` inside `new_initialize` is unreachable — and the `params` the
builder produces is exactly the serialized `InitializeParams`, never the
fallback of the modelled `unwrap`. -/
theorem new_initialize_serialization_total :
    (∀ p : InitializeParams, (InitializeParams.to_value p).isSome = true) ∧
      ∀ (id pid : Nat) (root name ver : String) (folders : List WorkspaceFolder),
        (RequestMessage.new_initialize id pid root name ver folders).params =
          InitializeParams.toJson
            { process_id := pid, root_uri := root,
              client_info := { name := name, version := ver },
              capabilities := initializeCapabilities,
              workspace_folders := some folders } := by
  constructor
  · intro p
    rw [InitializeParams.to_value_eq]
    rfl
  · intro id pid root name ver folders
    simp [RequestMessage.new_initialize, InitializeParams.to_value_eq]

/-- C10: a response with no `error` and with `result` equal to the empty
JSON array decodes to success with the empty location list — the empty list
of results is observably different from the `notFound` failure reserved for
an absent or null result. -/
theorem handle_definition_empty_array (r : ResponseMessage) (he : r.error = none)
    (hr : r.result = some (.arr [])) : r.handle_definition = .ok [] := by
  unfold ResponseMessage.handle_definition
  rw [he, hr]
  rfl

/-- C10 witness: the empty-array response at concrete field values. -/
theorem handle_definition_empty_array_witness :
    ResponseMessage.handle_definition
        { jsonrpc := "2.0", id := some (.num 7), result := some (.arr []), error := none } =
      .ok [] :=
  handle_definition_empty_array
    { jsonrpc := "2.0", id := some (.num 7), result := some (.arr []), error := none } rfl rfl

end LspRs
